import Mathlib

/-!
Shallow embedding of the PWA asset generator (`main.py`) and proofs of the
specification's claims about it.

The image pipeline delegates resampling (PIL's Lanczos filter) and the
mask-blend of `Image.paste` to an external library; the embedding keeps those
two pixel-level operations abstract as explicit function parameters
(`resample`, `blendPix`) and models everything the repository's own code
determines: dimensions, canvas construction, paste regions, file naming,
manifest construction, favicon packing, argument parsing and the order of
filesystem effects.
-/

namespace PwaAssets

/-- One RGBA pixel, as PIL's mode "RGBA" stores it (four 8-bit bands). -/
structure RGBA where
  r : Nat
  g : Nat
  b : Nat
  a : Nat
deriving DecidableEq, Repr

/-- The fully transparent pixel `(0, 0, 0, 0)` used for fresh canvases. -/
def RGBA.clear : RGBA := ⟨0, 0, 0, 0⟩

/-- An in-memory raster image: dimensions plus a pixel function.  Pixels
outside the `width × height` rectangle are irrelevant; `Image.eqv` below is
the observational equality that ignores them. -/
structure Image where
  width : Nat
  height : Nat
  pix : Nat → Nat → RGBA

/-- Observational equality of images: same dimensions and the same pixels
inside the bounds. -/
def Image.eqv (s t : Image) : Prop :=
  s.width = t.width ∧ s.height = t.height ∧
    ∀ x y, x < s.width → y < s.height → s.pix x y = t.pix x y

/-- A resampling filter: from a source image and a target size to the pixel
function of the resized image (abstracting PIL's `Image.resize` filter,
`RESAMPLE = Image.Resampling.LANCZOS` in the source). -/
def Filter : Type := Image → Nat × Nat → Nat → Nat → RGBA

/-- A mask blend: destination pixel and source pixel to composited pixel
(abstracting how PIL's `Image.paste` with an alpha mask combines the two
inside the paste box). -/
def Blend : Type := RGBA → RGBA → RGBA

/-- `img.resize(size, RESAMPLE)`: the result has exactly the target
dimensions; its pixels come from the resampling filter. -/
def Image.resize (img : Image) (size : Nat × Nat) (resample : Filter) : Image :=
  { width := size.1, height := size.2, pix := resample img size }

/-- `dest.paste(src, offset, mask)` where the mask is `src` itself: inside the
box `[offset.1, offset.1 + src.width) × [offset.2, offset.2 + src.height)` the
destination pixel is blended with the corresponding source pixel; outside the
box the destination is untouched. -/
def Image.paste (dest src : Image) (offset : Nat × Nat) (blendPix : Blend) : Image :=
  { width := dest.width, height := dest.height,
    pix := fun x y =>
      if offset.1 ≤ x ∧ x < offset.1 + src.width ∧
          offset.2 ≤ y ∧ y < offset.2 + src.height then
        blendPix (dest.pix x y) (src.pix (x - offset.1) (y - offset.2))
      else
        dest.pix x y }

/-- `Image.new("RGBA", size, (0, 0, 0, 0))`: a fully transparent canvas. -/
def Image.newClear (size : Nat × Nat) : Image :=
  { width := size.1, height := size.2, pix := fun _ _ => RGBA.clear }

/-! ### Configuration constants (`main.py` lines 10–18) -/

def MANIFEST_SIZES : List Nat := [32, 48, 72, 128, 180, 192, 256, 384, 512]

def MANIFEST_PREFIXES : List String := ["icon", "maskable-icon"]

def CANVAS_SIZE : Nat × Nat := (500, 500)

def INNER_SIZE : Nat × Nat := (320, 320)

def MANIFEST_ICON_BASE_PATH : String := "/assets/media/img/manifest"

/-! ### PNG files: a lossless container for RGBA pixel data -/

/-- The content of a written PNG file: PNG is lossless for RGBA, so the file
determines the dimensions and every in-bounds pixel (out-of-bounds reads of
the decoded file yield nothing, modelled as `RGBA.clear`). -/
structure PNGFile where
  width : Nat
  height : Nat
  pixels : Nat → Nat → RGBA

/-- `save_png` / `img.save(path, format="PNG")`: encode an image losslessly. -/
def savePNGData (img : Image) : PNGFile :=
  { width := img.width, height := img.height,
    pixels := fun x y => if x < img.width ∧ y < img.height then img.pix x y else RGBA.clear }

/-- `open_and_convert_img_to_rgb` applied to a PNG file: decode it and convert
to RGBA (the identity on data that is already RGBA, as PNG files written by
`save_png` are). -/
def open_and_convert_img_to_rgb (f : PNGFile) : Image :=
  { width := f.width, height := f.height, pix := f.pixels }

/-! ### Canvas compositor (`centre_on_canvas`, lines 32–44) -/

/-- `centre_on_canvas`: resize the source to `inner_size`, create a fully
transparent canvas of `canvas_size`, and paste the resized image (masked by
its own alpha) at the centring offset `((cw - iw) // 2, (ch - ih) // 2)`. -/
def centre_on_canvas (resample : Filter) (blendPix : Blend) (img : Image)
    (canvas_size : Nat × Nat := CANVAS_SIZE) (inner_size : Nat × Nat := INNER_SIZE) : Image :=
  let resized := img.resize inner_size resample
  let canvas := Image.newClear canvas_size
  let offset := ((canvas_size.1 - inner_size.1) / 2, (canvas_size.2 - inner_size.2) / 2)
  canvas.paste resized offset blendPix

/-! ### Icon set emitter (`generate_manifest_icons`, lines 49–55) -/

/-- The file name `f"{prefix}-{size}x{size}.png"` of one emitted icon. -/
def iconFileName (pfx : String) (size : Nat) : String := s!"{pfx}-{size}x{size}.png"

/-- `generate_manifest_icons`: for each size the base image resized to
`(size, size)`, written once per purpose prefix into the manifest
subdirectory.  The result lists `(file name, image written)` in the order the
loop writes them. -/
def generate_manifest_icons (resample : Filter) (base : Image) : List (String × Image) :=
  MANIFEST_SIZES.flatMap fun size =>
    let resized := base.resize (size, size) resample
    MANIFEST_PREFIXES.map fun pfx => (iconFileName pfx size, resized)

/-! ### Manifest builder (`generate_manifest_json`, lines 57–92) -/

/-- One entry of the manifest's `icons` list. -/
structure IconEntry where
  src : String
  sizes : String
  type : String
  purpose : String
deriving DecidableEq, Repr, Inhabited

/-- The manifest document's fields, in the order the source writes them. -/
structure Manifest where
  name : String
  short_name : String
  description : String
  lang : String
  dir : String
  start_url : String
  scope : String
  display : String
  orientation : String
  theme_color : String
  background_color : String
  icons : List IconEntry
  categories : List String
deriving DecidableEq, Repr

/-- `generate_manifest_json`: the manifest document written to
`<out>/manifest.json`.  For each size the loop appends the `"any"` entry and
then the `"maskable"` entry; `src` paths join `MANIFEST_ICON_BASE_PATH` with
the file-name convention, never the output directory. -/
def generate_manifest_json (project_folder : String) : Manifest :=
  let icons := MANIFEST_SIZES.flatMap fun size =>
    [{ src := s!"{MANIFEST_ICON_BASE_PATH}/icon-{size}x{size}.png",
       sizes := s!"{size}x{size}", type := "image/png", purpose := "any" },
     { src := s!"{MANIFEST_ICON_BASE_PATH}/maskable-icon-{size}x{size}.png",
       sizes := s!"{size}x{size}", type := "image/png", purpose := "maskable" }]
  { name := "Nom complet de l'application"
    short_name := project_folder
    description := "Description de l'application."
    lang := "fr-FR"
    dir := "ltr"
    start_url := "/"
    scope := "/"
    display := "standalone"
    orientation := "portrait-primary"
    theme_color := "#ffffff"
    background_color := "#ffffff"
    icons := icons
    categories := [] }

/-! ### Favicon / logo emitter (`generate_favicon`, `generate_logo`) -/

/-- The content of the favicon container file as the source requests it: the
declared resolution slots handed to the encoder (`sizes=ico_sizes`) and the
single 32×32 resize the encoder packs into them. -/
structure ICOFile where
  declaredSizes : List (Nat × Nat)
  base : Image

/-- `generate_favicon`: resize the source once to 32×32 and save it in ICO
format declaring the five resolution slots. -/
def generate_favicon (resample : Filter) (src : Image) : ICOFile :=
  let ico_sizes : List (Nat × Nat) := [(32, 32), (48, 48), (64, 64), (128, 128), (256, 256)]
  let thumb := src.resize (32, 32) resample
  { declaredSizes := ico_sizes, base := thumb }

/-- `generate_logo`: the source resized to `size × size` (default 192),
saved as PNG. -/
def generate_logo (resample : Filter) (src : Image) (size : Nat := 192) : Image :=
  src.resize (size, size) resample

/-! ### The pipeline (`generate_assets`, lines 102–131) with its filesystem
effects as an explicit event trace. -/

/-- One filesystem effect of the pipeline, in program order. -/
inductive FsEvent where
  | mkdir (path : String)
  | createTemp (path : String)
  | writeFile (path : String)
  | unlink (path : String)
deriving DecidableEq, Repr

/-- The centring scope of `generate_assets` (lines 112–122): a named
temporary file is created, then inside `try:` the canvas is composed, saved
to the temporary path and re-decoded, and the `finally:` clause unlinks the
temporary path.  `saveOk` and `reopenOk` say whether the two fallible steps
inside the `try:` block succeed; on failure the scope produces no base image
but the `finally:` clause still runs. -/
def centeringScope (resample : Filter) (blendPix : Blend) (original : Image)
    (tmp_path : String) (saveOk reopenOk : Bool) : Option Image × List FsEvent :=
  let base := centre_on_canvas resample blendPix original
  if saveOk then
    if reopenOk then
      (some (open_and_convert_img_to_rgb (savePNGData base)),
       [FsEvent.createTemp tmp_path, FsEvent.writeFile tmp_path, FsEvent.unlink tmp_path])
    else
      (none, [FsEvent.createTemp tmp_path, FsEvent.writeFile tmp_path, FsEvent.unlink tmp_path])
  else
    (none, [FsEvent.createTemp tmp_path, FsEvent.unlink tmp_path])

/-- What one run of `generate_assets` produces. -/
structure AssetsOutput where
  manifestIcons : List (String × Image)
  manifest : Manifest
  logo : Image
  favicon : ICOFile

/-- `generate_assets` on the success path: create the output directory, when
`center` round-trip the centred canvas through the scoped temporary file
(`tmp_path`), otherwise use the original unchanged, then emit the icon set,
the manifest document, the logo and the favicon.  The second component is the
trace of filesystem effects in program order. -/
def generate_assets (resample : Filter) (blendPix : Blend) (original : Image)
    (project_folder : String) (center : Bool) (tmp_path : String) :
    AssetsOutput × List FsEvent :=
  let out := project_folder
  let centred :=
    if center then
      let scope := centeringScope resample blendPix original tmp_path true true
      ((scope.1).getD original, scope.2)
    else
      (original, ([] : List FsEvent))
  let base := centred.1
  let icons := generate_manifest_icons resample base
  let manifest := generate_manifest_json project_folder
  ({ manifestIcons := icons, manifest := manifest
     logo := generate_logo resample original
     favicon := generate_favicon resample original },
   [FsEvent.mkdir out] ++ centred.2 ++ [FsEvent.mkdir (out ++ "/manifest")]
     ++ icons.map (fun f => FsEvent.writeFile (out ++ "/manifest/" ++ f.1))
     ++ [FsEvent.writeFile (out ++ "/manifest.json"),
         FsEvent.writeFile (out ++ "/logo.png"),
         FsEvent.writeFile (out ++ "/favicon.ico")])

/-! ### CLI plumbing (`resolve_source_path`, `_parse_bool`, `main`) -/

/-- `resolve_source_path`: join the working directory with the file name; if
that path is not an existing regular file, fail with the source's message. -/
def resolve_source_path (isFile : String → Bool) (cwd filename : String) :
    Except String String :=
  let path := cwd ++ "/" ++ filename
  if isFile path then Except.ok path
  else Except.error s!"'{filename}' not found in the current directory ({cwd})."

/-- The characters Python's `str.strip()` removes: everything
`str.isspace()` accepts — the ASCII whitespace `\t \n \x0b \x0c \r` and
space, the control characters `\x1c`–`\x1f`, next line `\x85`, no-break
space `\xa0`, and the Unicode space separators and line/paragraph
separators. -/
def isPySpace (c : Char) : Bool :=
  c = ' ' ∨ c = '\t' ∨ c = '\n' ∨ c = '\r' ∨ c = '\x0b' ∨ c = '\x0c' ∨
  c = '\x1c' ∨ c = '\x1d' ∨ c = '\x1e' ∨ c = '\x1f' ∨ c = '\x85' ∨ c = '\xa0' ∨
  c = '\u1680' ∨ ('\u2000' ≤ c ∧ c ≤ '\u200A') ∨ c = '\u2028' ∨ c = '\u2029' ∨
  c = '\u202F' ∨ c = '\u205F' ∨ c = '\u3000'

/-- Python's `value.strip()`: drop leading and trailing whitespace. -/
def pyStrip (s : String) : String :=
  ⟨((s.data.dropWhile isPySpace).reverse.dropWhile isPySpace).reverse⟩

/-- Python's `value.lower()` on the ASCII values the flag can take. -/
def pyLower (s : String) : String :=
  ⟨s.data.map Char.toLower⟩

/-- `_parse_bool`: strip and lower-case the value; only `"true"` and
`"false"` are accepted, anything else is a usage error naming the flag and
the offending value. -/
def parse_bool (value flag : String) : Except String Bool :=
  let normalised := pyLower (pyStrip value)
  if normalised = "true" ∨ normalised = "false" then Except.ok (normalised = "true")
  else Except.error s!"Error: '{flag}' must be 'true' or 'false', got '{value}'."

/-- The observable outcome of one `main` invocation: exit code, messages
printed, the filesystem trace, and the produced assets on success. -/
structure MainResult where
  exitCode : Nat
  messages : List String
  events : List FsEvent
  output : Option AssetsOutput

/-- The usage text printed on a wrong argument count. -/
def usageMessage : String :=
  "Utilisation: python main.py <nom_image> <nom_du_projet> [centrer sur le canvas]\n  - Si vous mettez 'false', l'image sera utilisée telle quelle, sans centrage ni redimensionnement."

/-- `main`: drop the program name, check the argument count, parse the
optional centring flag (default `true`), resolve the source path, and run
`generate_assets`.  Every error path exits with code 1 after printing one
diagnostic and before any filesystem effect of its own. -/
def main_run (isFile : String → Bool) (readImage : String → Image)
    (resample : Filter) (blendPix : Blend) (cwd : String) (tmp_path : String)
    (argv : List String) : MainResult :=
  let args := argv.drop 1
  if 2 ≤ args.length ∧ args.length ≤ 3 then
    let filename := args.getD 0 ""
    let project_folder := args.getD 1 ""
    let centerParsed :=
      if args.length = 3 then parse_bool (args.getD 2 "") "center" else Except.ok true
    match centerParsed with
    | Except.error msg =>
        { exitCode := 1, messages := [msg], events := [], output := none }
    | Except.ok center =>
        match resolve_source_path isFile cwd filename with
        | Except.error msg =>
            { exitCode := 1, messages := ["File error: " ++ msg], events := [], output := none }
        | Except.ok path =>
            let original := readImage path
            let run := generate_assets resample blendPix original project_folder center tmp_path
            { exitCode := 0
              messages := [s!"Icônes et manifest.json sauvegardés dans '{project_folder}/'."]
              events := run.2
              output := some run.1 }
  else
    { exitCode := 1, messages := [usageMessage], events := [], output := none }

/-! ### Concrete instances used by the witness theorems -/

/-- A concrete resampling filter (nearest-neighbour flavoured) standing in
for the abstract `Filter` parameter in witnesses. -/
def sampleFilter : Filter :=
  fun img size x y => img.pix (x * img.width / max size.1 1) (y * img.height / max size.2 1)

/-- A concrete blend (source over destination) standing in for the abstract
`Blend` parameter in witnesses. -/
def sampleBlend : Blend := fun _ s => s

/-- A concrete 2×2 test image. -/
def sampleImage : Image :=
  { width := 2, height := 2, pix := fun x y => ⟨x, y, 100, 255⟩ }

end PwaAssets

namespace PwaAssets

/-- C1: for the Size Set and Purpose Tag set of the configuration, the Icon
Set Emitter writes exactly `|S| × |P| = 9 × 2 = 18` files, deterministically
named `<prefix>-<size>x<size>.png`, and the Manifest Builder's icon list has
exactly 18 entries whose `sizes` strings match the dimensions of the emitted
images, file by file. -/
theorem icon_set_and_manifest_counts (resample : Filter) (base : Image) (pf tmp : String) :
    (generate_manifest_icons resample base).length =
      MANIFEST_SIZES.length * MANIFEST_PREFIXES.length ∧
    MANIFEST_SIZES.length * MANIFEST_PREFIXES.length = 18 ∧
    (generate_manifest_icons resample base).map Prod.fst =
      ["icon-32x32.png", "maskable-icon-32x32.png",
       "icon-48x48.png", "maskable-icon-48x48.png",
       "icon-72x72.png", "maskable-icon-72x72.png",
       "icon-128x128.png", "maskable-icon-128x128.png",
       "icon-180x180.png", "maskable-icon-180x180.png",
       "icon-192x192.png", "maskable-icon-192x192.png",
       "icon-256x256.png", "maskable-icon-256x256.png",
       "icon-384x384.png", "maskable-icon-384x384.png",
       "icon-512x512.png", "maskable-icon-512x512.png"] ∧
    (generate_manifest_json pf).icons.length =
      MANIFEST_SIZES.length * MANIFEST_PREFIXES.length ∧
    (generate_manifest_json pf).icons.map IconEntry.sizes =
      (generate_manifest_icons resample base).map (fun f => s!"{f.2.width}x{f.2.height}") ∧
    (∃ pre post, pre ++ (generate_manifest_icons resample base).map
        (fun f => FsEvent.writeFile (pf ++ "/manifest/" ++ f.1)) ++ post =
      (generate_assets resample sampleBlend base pf false tmp).2) :=
  ⟨rfl, rfl, rfl, rfl, rfl,
   ⟨[FsEvent.mkdir pf, FsEvent.mkdir (pf ++ "/manifest")],
    [FsEvent.writeFile (pf ++ "/manifest.json"), FsEvent.writeFile (pf ++ "/logo.png"),
     FsEvent.writeFile (pf ++ "/favicon.ico")], rfl⟩⟩

/-- C2: with the fixed configuration the Canvas Compositor's output has
exactly the canvas dimensions 500×500, is fully transparent outside the
pasted region, and inside the region carries the paste blend of the source
resized to the inner dimensions 320×320, placed at the offset
`((500 - 320) / 2, (500 - 320) / 2) = (90, 90)`. -/
theorem canvas_compositor_spec (resample : Filter) (blendPix : Blend) (img : Image) :
    (centre_on_canvas resample blendPix img).width = CANVAS_SIZE.1 ∧
    (centre_on_canvas resample blendPix img).height = CANVAS_SIZE.2 ∧
    ((CANVAS_SIZE.1 - INNER_SIZE.1) / 2, (CANVAS_SIZE.2 - INNER_SIZE.2) / 2) = (90, 90) ∧
    (∀ x y, ¬(90 ≤ x ∧ x < 90 + INNER_SIZE.1 ∧ 90 ≤ y ∧ y < 90 + INNER_SIZE.2) →
      (centre_on_canvas resample blendPix img).pix x y = RGBA.clear) ∧
    (∀ x y, 90 ≤ x → x < 90 + INNER_SIZE.1 → 90 ≤ y → y < 90 + INNER_SIZE.2 →
      (centre_on_canvas resample blendPix img).pix x y =
        blendPix RGBA.clear ((img.resize INNER_SIZE resample).pix (x - 90) (y - 90))) := by
  refine ⟨rfl, rfl, rfl, ?_, ?_⟩
  · intro x y hout
    show (if 90 ≤ x ∧ x < 90 + 320 ∧ 90 ≤ y ∧ y < 90 + 320 then
        blendPix (RGBA.clear) ((img.resize INNER_SIZE resample).pix (x - 90) (y - 90))
      else RGBA.clear) = RGBA.clear
    rw [if_neg]
    intro hc
    exact hout ⟨hc.1, hc.2.1, hc.2.2.1, hc.2.2.2⟩
  · intro x y hx hx' hy hy'
    show (if 90 ≤ x ∧ x < 90 + 320 ∧ 90 ≤ y ∧ y < 90 + 320 then
        blendPix (RGBA.clear) ((img.resize INNER_SIZE resample).pix (x - 90) (y - 90))
      else RGBA.clear) =
      blendPix RGBA.clear ((img.resize INNER_SIZE resample).pix (x - 90) (y - 90))
    rw [if_pos ⟨hx, hx', hy, hy'⟩]

/-- C3: with `center = false` the Canvas Compositor never runs: no scratch
temporary file appears in the trace, and the manifest icon variants are
resized directly from the normalized original image (whatever its
dimensions), not from a 500×500 canvas. -/
theorem no_center_skips_compositor (resample : Filter) (blendPix : Blend)
    (original : Image) (pf tmp : String) :
    (generate_assets resample blendPix original pf false tmp).1.manifestIcons =
      generate_manifest_icons resample original ∧
    (generate_assets resample blendPix original pf false tmp).1.manifestIcons.map Prod.snd =
      MANIFEST_SIZES.flatMap
        (fun s => [original.resize (s, s) resample, original.resize (s, s) resample]) ∧
    FsEvent.createTemp tmp ∉ (generate_assets resample blendPix original pf false tmp).2 ∧
    FsEvent.unlink tmp ∉ (generate_assets resample blendPix original pf false tmp).2 := by
  refine ⟨rfl, rfl, ?_, ?_⟩ <;>
  · intro hmem
    simp [generate_assets, generate_manifest_icons, MANIFEST_SIZES, MANIFEST_PREFIXES] at hmem

/-- C4: every icon entry's `src` in the generated manifest equals the fixed
deployment base path `/assets/media/img/manifest/` followed by
`<prefix>-<W>x<H>.png`, and the icon list is independent of the project
folder name given on the command line. -/
theorem manifest_src_paths_fixed (pf pf2 : String) :
    (generate_manifest_json pf).icons.map IconEntry.src =
      ["/assets/media/img/manifest/icon-32x32.png",
       "/assets/media/img/manifest/maskable-icon-32x32.png",
       "/assets/media/img/manifest/icon-48x48.png",
       "/assets/media/img/manifest/maskable-icon-48x48.png",
       "/assets/media/img/manifest/icon-72x72.png",
       "/assets/media/img/manifest/maskable-icon-72x72.png",
       "/assets/media/img/manifest/icon-128x128.png",
       "/assets/media/img/manifest/maskable-icon-128x128.png",
       "/assets/media/img/manifest/icon-180x180.png",
       "/assets/media/img/manifest/maskable-icon-180x180.png",
       "/assets/media/img/manifest/icon-192x192.png",
       "/assets/media/img/manifest/maskable-icon-192x192.png",
       "/assets/media/img/manifest/icon-256x256.png",
       "/assets/media/img/manifest/maskable-icon-256x256.png",
       "/assets/media/img/manifest/icon-384x384.png",
       "/assets/media/img/manifest/maskable-icon-384x384.png",
       "/assets/media/img/manifest/icon-512x512.png",
       "/assets/media/img/manifest/maskable-icon-512x512.png"] ∧
    (generate_manifest_json pf).icons.map IconEntry.src =
      (generate_manifest_icons sampleFilter sampleImage).map
        (fun f => MANIFEST_ICON_BASE_PATH ++ "/" ++ f.1) ∧
    (generate_manifest_json pf).icons = (generate_manifest_json pf2).icons :=
  ⟨rfl, rfl, rfl⟩

/-- C5: the emitted favicon container declares exactly the resolution slots
32×32, 48×48, 64×64, 128×128 and 256×256, and the image handed to the encoder
to pack those slots is the single resize of the normalized source to 32×32. -/
theorem favicon_declared_resolutions (resample : Filter) (src : Image) :
    (generate_favicon resample src).declaredSizes =
      [(32, 32), (48, 48), (64, 64), (128, 128), (256, 256)] ∧
    (generate_favicon resample src).base = src.resize (32, 32) resample ∧
    (generate_favicon resample src).base.width = 32 ∧
    (generate_favicon resample src).base.height = 32 :=
  ⟨rfl, rfl, rfl, rfl⟩

/-- C6: with `center = true` the base image fed to the Variant Renderer is
observationally identical to the direct output of the Canvas Compositor (the
PNG encode/decode round-trip through the scratch file is unobservable), and
the scratch temporary file is unlinked as the last event of its scope on
every exit path — whether the save and the re-decode succeed or either step
fails. -/
theorem centering_roundtrip_and_cleanup (resample : Filter) (blendPix : Blend)
    (original : Image) (pf tmp : String) :
    (∀ saveOk reopenOk : Bool,
      (centeringScope resample blendPix original tmp saveOk reopenOk).2.getLast? =
        some (FsEvent.unlink tmp) ∧
      FsEvent.unlink tmp ∈ (centeringScope resample blendPix original tmp saveOk reopenOk).2) ∧
    (∃ base,
      (generate_assets resample blendPix original pf true tmp).1.manifestIcons =
        generate_manifest_icons resample base ∧
      Image.eqv base (centre_on_canvas resample blendPix original)) := by
  constructor
  · intro saveOk reopenOk
    cases saveOk <;> cases reopenOk <;> exact ⟨rfl, by simp [centeringScope]⟩
  · refine ⟨open_and_convert_img_to_rgb (savePNGData (centre_on_canvas resample blendPix original)),
      rfl, rfl, rfl, ?_⟩
    intro x y hx hy
    exact if_pos ⟨hx, hy⟩

/-- C7 counterexample: the claim as stated is false on the code.  The third
argument `" true "` is not case-insensitively equal to `"true"` or
`"false"` (lower-casing alone does not erase the padding), yet the program
strips whitespace before comparing, accepts the flag, proceeds to generate
every asset and exits with code 0 — not 1, and not before writing files. -/
theorem padded_true_flag_accepted :
    pyLower " true " ≠ "true" ∧ pyLower " true " ≠ "false" ∧
    (main_run (fun _ => true) (fun _ => sampleImage) sampleFilter sampleBlend "/home" "/tmp/s.png"
        ["main.py", "logo.png", "myapp", " true "]).exitCode = 0 ∧
    (main_run (fun _ => true) (fun _ => sampleImage) sampleFilter sampleBlend "/home" "/tmp/s.png"
        ["main.py", "logo.png", "myapp", " true "]).events ≠ [] := by
  refine ⟨by decide, by decide, rfl, by decide⟩

/-- C7 (amended): a third argument whose whitespace-stripped, lower-cased
form is neither `"true"` nor `"false"` makes the program exit with code 1
before any filesystem effect, printing a diagnostic naming the `center` flag
and the offending value; an absent third argument behaves exactly like an
explicit `"true"`. -/
theorem invalid_center_flag_rejected (isFile : String → Bool) (readImage : String → Image)
    (resample : Filter) (blendPix : Blend) (cwd tmp prog a b c : String)
    (h1 : pyLower (pyStrip c) ≠ "true") (h2 : pyLower (pyStrip c) ≠ "false") :
    (main_run isFile readImage resample blendPix cwd tmp [prog, a, b, c]).exitCode = 1 ∧
    (main_run isFile readImage resample blendPix cwd tmp [prog, a, b, c]).events = [] ∧
    (main_run isFile readImage resample blendPix cwd tmp [prog, a, b, c]).output = none ∧
    (main_run isFile readImage resample blendPix cwd tmp [prog, a, b, c]).messages =
      [s!"Error: 'center' must be 'true' or 'false', got '{c}'."] ∧
    main_run isFile readImage resample blendPix cwd tmp [prog, a, b] =
      main_run isFile readImage resample blendPix cwd tmp [prog, a, b, "true"] := by
  refine ⟨?_, ?_, ?_, ?_, rfl⟩ <;>
    · simp [main_run, parse_bool, h1, h2]
      try rfl

/-- C7 witness: the scenario of the spec, third argument `"Maybe"`. -/
theorem invalid_center_flag_rejected_witness :
    (main_run (fun _ => true) (fun _ => sampleImage) sampleFilter sampleBlend "/home" "/tmp/s.png"
        ["main.py", "logo.png", "myapp", "Maybe"]).exitCode = 1 ∧
    (main_run (fun _ => true) (fun _ => sampleImage) sampleFilter sampleBlend "/home" "/tmp/s.png"
        ["main.py", "logo.png", "myapp", "Maybe"]).events = [] := by
  have h := invalid_center_flag_rejected (fun _ => true) (fun _ => sampleImage)
    sampleFilter sampleBlend "/home" "/tmp/s.png" "main.py" "logo.png" "myapp" "Maybe"
    (by decide) (by decide)
  exact ⟨h.1, h.2.1⟩

/-- C8: when the source filename does not name an existing file under the
working directory, the program exits with code 1 after printing the
diagnostic, with no filesystem effect (in particular no output directory is
created). -/
theorem missing_source_file_rejected (isFile : String → Bool) (readImage : String → Image)
    (resample : Filter) (blendPix : Blend) (cwd tmp prog fn pf : String)
    (h : isFile (cwd ++ "/" ++ fn) = false) :
    (main_run isFile readImage resample blendPix cwd tmp [prog, fn, pf]).exitCode = 1 ∧
    (main_run isFile readImage resample blendPix cwd tmp [prog, fn, pf]).events = [] ∧
    (main_run isFile readImage resample blendPix cwd tmp [prog, fn, pf]).output = none ∧
    (main_run isFile readImage resample blendPix cwd tmp [prog, fn, pf]).messages =
      ["File error: " ++ s!"'{fn}' not found in the current directory ({cwd})."] ∧
    (∀ c, pyLower (pyStrip c) = "true" ∨ pyLower (pyStrip c) = "false" →
      (main_run isFile readImage resample blendPix cwd tmp [prog, fn, pf, c]).exitCode = 1 ∧
      (main_run isFile readImage resample blendPix cwd tmp [prog, fn, pf, c]).events = []) := by
  refine ⟨?_, ?_, ?_, ?_, ?_⟩
  · simp [main_run, parse_bool, resolve_source_path, h]
  · simp [main_run, parse_bool, resolve_source_path, h]
  · simp [main_run, parse_bool, resolve_source_path, h]
  · simp [main_run, parse_bool, resolve_source_path, h]
  · intro c hc
    constructor <;> rcases hc with hc | hc <;>
      simp [main_run, parse_bool, resolve_source_path, h, hc]

/-- C8 witness: the scenario of the spec, a missing source file. -/
theorem missing_source_file_rejected_witness :
    (main_run (fun _ => false) (fun _ => sampleImage) sampleFilter sampleBlend "/home" "/tmp/s.png"
        ["main.py", "logo.png", "myapp"]).exitCode = 1 ∧
    (main_run (fun _ => false) (fun _ => sampleImage) sampleFilter sampleBlend "/home" "/tmp/s.png"
        ["main.py", "logo.png", "myapp"]).events = [] := by
  have h := missing_source_file_rejected (fun _ => false) (fun _ => sampleImage)
    sampleFilter sampleBlend "/home" "/tmp/s.png" "main.py" "logo.png" "myapp" rfl
  exact ⟨h.1, h.2.1⟩

/-- C9: the favicon and the 192×192 logo are always derived from the original
normalized (pre-centering) image, so they are identical whether `center` is
true or false. -/
theorem favicon_logo_from_original (resample : Filter) (blendPix : Blend)
    (original : Image) (pf tmp : String) :
    ∀ center : Bool,
      (generate_assets resample blendPix original pf center tmp).1.logo =
        generate_logo resample original ∧
      (generate_assets resample blendPix original pf center tmp).1.logo =
        original.resize (192, 192) resample ∧
      (generate_assets resample blendPix original pf center tmp).1.favicon =
        generate_favicon resample original ∧
      (generate_assets resample blendPix original pf center tmp).1.logo =
        (generate_assets resample blendPix original pf true tmp).1.logo ∧
      (generate_assets resample blendPix original pf center tmp).1.favicon =
        (generate_assets resample blendPix original pf true tmp).1.favicon := by
  intro center
  cases center <;> exact ⟨rfl, rfl, rfl, rfl, rfl⟩

/-- C10: the manifest's icon list follows the configured Size Set, which is
strictly ascending, and for each size the entry with purpose `any`
immediately precedes the entry with purpose `maskable`, both carrying that
size's `sizes` string. -/
theorem manifest_icons_interleaving (pf : String) :
    List.Pairwise (· < ·) MANIFEST_SIZES ∧
    (generate_manifest_json pf).icons.length = 2 * MANIFEST_SIZES.length ∧
    ∀ i, i < MANIFEST_SIZES.length →
      ((generate_manifest_json pf).icons.getD (2 * i) default).purpose = "any" ∧
      ((generate_manifest_json pf).icons.getD (2 * i + 1) default).purpose = "maskable" ∧
      ((generate_manifest_json pf).icons.getD (2 * i) default).sizes =
        s!"{MANIFEST_SIZES.getD i 0}x{MANIFEST_SIZES.getD i 0}" ∧
      ((generate_manifest_json pf).icons.getD (2 * i + 1) default).sizes =
        ((generate_manifest_json pf).icons.getD (2 * i) default).sizes := by
  refine ⟨by decide, rfl, ?_⟩
  intro i hi
  simp only [MANIFEST_SIZES, List.length_cons, List.length_nil] at hi
  interval_cases i <;> exact ⟨rfl, rfl, rfl, rfl⟩

end PwaAssets
